import Mathlib

/-!
Shallow embedding of the heario asynchronous search-task orchestration layer.

Sources embedded here:
- `src/frontend/src/services/api.ts` (`NewsItem`),
- `src/frontend/src/services/asyncNewsService.ts` (`SearchTask`,
  `PaginatedSearchResult`, `pollSearchStatus`, `smartSearch`),
- `src/frontend/src/components/NewsList.tsx` (`handleSmartSearch` with its three
  callbacks, `handleCancelSearch`, and the component state the handlers mutate).

Asynchronous JavaScript is modelled as single-threaded event-loop semantics:
each remote fetch outcome is an element of a script (a list), each React state
setter is a field update on an explicit record, and each callback is a pure
state transformer applied when its event is delivered.
-/

namespace Heario

/-- Structure `NewsItem` from `api.ts`: `id`, `title`, `summary`, `url`, `created_at`,
all strings. -/
structure NewsItem where
  id : String
  title : String
  summary : String
  url : String
  created_at : String
deriving DecidableEq, Repr

/-- The eight legal values of `SearchTask.status` in `asyncNewsService.ts`. -/
inductive TaskStatus where
  | started
  | fetching_articles
  | filtering_articles
  | fetching_content
  | generating_summaries
  | completed
  | error
  | cancelled
deriving DecidableEq, Repr

/-- Structure `SearchTask` from `asyncNewsService.ts`. -/
structure SearchTask where
  task_id : String
  query : String
  status : TaskStatus
  message : String
  progress : Int
  started_at : String
  articles : List NewsItem
  total_processed : Option Int := none
  total_found : Option Int := none
  error : Option String := none
deriving DecidableEq, Repr

/-- Structure `PaginatedSearchResult` from `asyncNewsService.ts`. -/
structure PaginatedSearchResult where
  articles : List NewsItem
  page : Int
  per_page : Int
  total_immediate : Int
  background_task_id : Option String := none
  message : String
deriving DecidableEq, Repr

/-- The `setNewsList` updater inside `handleSmartSearch`'s `onFinalResults`
callback (`NewsList.tsx` lines 233-237):

    const existingIds = new Set(prevList.map(item => item.id));
    const newArticles = finalTask.articles.filter(article => !existingIds.has(article.id));
    return [...prevList, ...newArticles];

The membership set is built once from `prevList` and is not updated while
`finalTask.articles` is filtered. -/
def mergeArticles (prevList : List NewsItem) (incoming : List NewsItem) :
    List NewsItem :=
  let existingIds := prevList.map (fun item => item.id)
  let newArticles := incoming.filter (fun article => !(existingIds.contains article.id))
  prevList ++ newArticles

/-- Concrete article A of the spec's §8 scenario. -/
def artA : NewsItem :=
  ⟨"a", "Article A", "summary A", "http://news/a", "2025-01-01"⟩

/-- Concrete article B of the spec's §8 scenario. -/
def artB : NewsItem :=
  ⟨"b", "Article B", "summary B", "http://news/b", "2025-01-01"⟩

/-- Concrete article C of the spec's §8 scenario. -/
def artC : NewsItem :=
  ⟨"c", "Article C", "summary C", "http://news/c", "2025-01-01"⟩

/-- A second fetch of article B: same identifier `"b"`, different summary text. -/
def artB2 : NewsItem :=
  ⟨"b", "Article B", "summary B updated", "http://news/b", "2025-01-02"⟩

/-- Concrete article D, used for the five-article immediate wave. -/
def artD : NewsItem :=
  ⟨"d", "Article D", "summary D", "http://news/d", "2025-01-01"⟩

/-- Concrete article E, used for the five-article immediate wave. -/
def artE : NewsItem :=
  ⟨"e", "Article E", "summary E", "http://news/e", "2025-01-01"⟩

/-! ## Poller (`pollSearchStatus` in `asyncNewsService.ts`)

`pollSearchStatus` repeatedly runs `getSearchStatus(taskId)`. We model each
remote fetch by its outcome: `.ok task` when the HTTP request succeeded and
parsed, `.err msg` when `getSearchStatus` threw (non-ok response or transport
failure). A poll execution is determined by the script of successive fetch
outcomes the Task Runner produces. -/

/-- Outcome of one `getSearchStatus` call: a parsed task, or a thrown error. -/
inductive FetchOutcome where
  | ok (task : SearchTask)
  | err (msg : String)
deriving DecidableEq, Repr

/-- Result of the promise returned by `pollSearchStatus`: resolved with the
final task, rejected with an error message, or still pending because the
script ran out before a terminal observation. -/
inductive PollOutcome where
  | resolved (task : SearchTask)
  | rejected (msg : String)
  | pending
deriving DecidableEq, Repr

/-- One execution of a poll loop: every observer (`onProgress`) invocation in
order, the promise outcome, and the number of `getSearchStatus` fetches
issued. -/
structure PollRun where
  observations : List SearchTask
  outcome : PollOutcome
  fetches : Nat
deriving DecidableEq, Repr

/-- JavaScript `a || b` on `task.error || task.message`: `undefined` and the
empty string are falsy, so they fall through to `b`. -/
def jsOrElse (a : Option String) (b : String) : String :=
  match a with
  | some s => if s = "" then b else s
  | none => b

/-- Function `pollSearchStatus` (`asyncNewsService.ts` lines 130-161) as a function of
the fetch-outcome script. Per iteration of `poll`: a thrown fetch rejects at
once (the `catch`); a fetched task is first passed to `onProgress`, then
`completed` resolves with the task, `error` rejects with
`task.error || task.message`, `cancelled` rejects with `"搜尋已取消"`, and any
other status schedules the next fetch via `setTimeout`. -/
def pollSearchStatus : List FetchOutcome → PollRun
  | [] => ⟨[], .pending, 0⟩
  | .err msg :: _ => ⟨[], .rejected msg, 1⟩
  | .ok task :: rest =>
    if task.status = .completed then ⟨[task], .resolved task, 1⟩
    else if task.status = .error then
      ⟨[task], .rejected (jsOrElse task.error task.message), 1⟩
    else if task.status = .cancelled then ⟨[task], .rejected "搜尋已取消", 1⟩
    else
      let r := pollSearchStatus rest
      ⟨task :: r.observations, r.outcome, r.fetches + 1⟩

/-- A fetch outcome that lets the loop continue: a successfully fetched task
whose status is none of `completed`, `error`, `cancelled`. -/
def continuesPolling : FetchOutcome → Bool
  | .ok task =>
    decide (task.status ≠ .completed ∧ task.status ≠ .error ∧
      task.status ≠ .cancelled)
  | .err _ => false

/-- A task of query "台灣" on task `T1` in a given status, used as concrete
poll input. -/
def taskT1 (st : TaskStatus) (prog : Int) (arts : List NewsItem) : SearchTask :=
  { task_id := "T1", query := "台灣", status := st, message := "working",
    progress := prog, started_at := "2025-01-01T00:00:00", articles := arts }

/-! ## Search Session Controller (`NewsList.tsx`)

The component state relevant to the orchestration, one field per React
`useState` hook mutated by the handlers, and each handler as a pure state
transformer. -/

/-- The `NewsList` component state touched by the smart-search handlers:
`newsList`, `isSearching`, `error`, `currentSearchTask`, `paginatedResults`,
`backgroundTaskId`, `currentSearchQuery`. -/
structure NewsListState where
  newsList : List NewsItem
  isSearching : Bool
  error : Option String
  currentSearchTask : Option SearchTask
  paginatedResults : Option PaginatedSearchResult
  backgroundTaskId : Option String
  currentSearchQuery : String
deriving DecidableEq, Repr

/-- The `useState` initial values of `NewsList` (ignoring `loading`, which the
smart-search path does not touch). -/
def initialState : NewsListState :=
  { newsList := [], isSearching := false, error := none,
    currentSearchTask := none, paginatedResults := none,
    backgroundTaskId := none, currentSearchQuery := "" }

/-- The synchronous prefix of `handleSmartSearch` (`NewsList.tsx` lines
184-204): when `backgroundTaskId` is set, a remote `cancelSearchTask` is
awaited first, and its failure is only logged (`console.error`), so the state
updates that follow are the same for either `cancelResult`; then the handler
sets `isSearching`, clears `error`, `currentSearchTask`, `paginatedResults`,
`backgroundTaskId` and the displayed list, and records the new query. -/
def handleSmartSearchStart (query : String) (cancelResult : Except String Unit)
    (s : NewsListState) : NewsListState :=
  { s with isSearching := true, error := none, currentSearchTask := none,
           paginatedResults := none, backgroundTaskId := none,
           newsList := [], currentSearchQuery := query }

/-- The immediate-results callback of `handleSmartSearch` (`NewsList.tsx`
lines 211-220): stores the paginated result, replaces the displayed list with
the immediate wave's articles, and records `background_task_id` (or `null`). -/
def onImmediateResults (results : PaginatedSearchResult) (s : NewsListState) :
    NewsListState :=
  { s with paginatedResults := some results,
           newsList := results.articles,
           backgroundTaskId := results.background_task_id }

/-- The progress callback of `handleSmartSearch` (`NewsList.tsx` lines
222-225): `setCurrentSearchTask(task)` and nothing else. -/
def onProgress (task : SearchTask) (s : NewsListState) : NewsListState :=
  { s with currentSearchTask := some task }

/-- The final-results callback of `handleSmartSearch` (`NewsList.tsx` lines
227-243): stores the final task, and when its `articles` list is non-empty
merges it into the displayed list via the `setNewsList` updater
(`mergeArticles`). -/
def onFinalResults (finalTask : SearchTask) (s : NewsListState) :
    NewsListState :=
  let s1 := { s with currentSearchTask := some finalTask }
  if finalTask.articles.length > 0 then
    { s1 with newsList := mergeArticles s1.newsList finalTask.articles }
  else s1

/-- Deliver a poll run's observer invocations in order: each one is the
`onProgress` callback of `handleSmartSearch`. -/
def applyObservations (obs : List SearchTask) (s : NewsListState) :
    NewsListState :=
  obs.foldl (fun st t => onProgress t st) s

/-- Function `smartSearch` (`asyncNewsService.ts` lines 166-203) wired to
`handleSmartSearch`'s callbacks, run after `handleSmartSearchStart`:
`onImmediateResults` fires with the paginated result; if
`background_task_id` is present the poll runs, every fetched task goes through
`onProgress`, a resolved poll fires `onFinalResults`, and a rejected poll is
swallowed by `smartSearch`'s `catch` (only `console.error`); the handler's
`finally` then clears `isSearching`. A pending poll means the script is
exhausted with the poll still running. -/
def smartSearchRun (immediate : PaginatedSearchResult)
    (script : List FetchOutcome) (s : NewsListState) : NewsListState :=
  let s1 := onImmediateResults immediate s
  match immediate.background_task_id with
  | none => { s1 with isSearching := false }
  | some _ =>
    let run := pollSearchStatus script
    let s2 := applyObservations run.observations s1
    match run.outcome with
    | .resolved t => { onFinalResults t s2 with isSearching := false }
    | .rejected _ => { s2 with isSearching := false }
    | .pending => s2

/-- Handler `handleCancelSearch` (`NewsList.tsx` lines 256-266): only acts when a
`backgroundTaskId` is present; a successful remote cancel clears
`currentSearchTask` and `backgroundTaskId`, while a failed one is only logged
(`console.error`) and changes nothing. -/
def handleCancelSearch (cancelResult : Except String Unit)
    (s : NewsListState) : NewsListState :=
  match s.backgroundTaskId with
  | some _ =>
    match cancelResult with
    | .ok _ => { s with currentSearchTask := none, backgroundTaskId := none }
    | .error _ => s
  | none => s

/-- Events delivered to the `NewsList` component on the event loop; a trace is
any interleaving the loop can produce. The three callback events may belong to
any still-running `smartSearch` invocation — the code attaches no generation
token or flag to them. -/
inductive Event where
  | startSearch (query : String) (cancelResult : Except String Unit)
  | immediateResults (results : PaginatedSearchResult)
  | progressTick (task : SearchTask)
  | finalResults (finalTask : SearchTask)
  | searchSettled
deriving Repr

/-- Apply one event to the component state via the handler the code installs
for it (`searchSettled` is `handleSmartSearch`'s `finally`). -/
def step (s : NewsListState) : Event → NewsListState
  | .startSearch q r => handleSmartSearchStart q r s
  | .immediateResults r => onImmediateResults r s
  | .progressTick t => onProgress t s
  | .finalResults t => onFinalResults t s
  | .searchSettled => { s with isSearching := false }

/-- Run a trace of events from a state. -/
def runTrace (s : NewsListState) (events : List Event) : NewsListState :=
  events.foldl step s

/-- Immediate wave of the first query Q1: article A, background task `T1`. -/
def immediateQ1 : PaginatedSearchResult :=
  { articles := [artA], page := 1, per_page := 8, total_immediate := 1,
    background_task_id := some "T1", message := "立即結果" }

/-- Immediate wave of the superseding query Q2: article C, background task
`T2`. -/
def immediateQ2 : PaginatedSearchResult :=
  { articles := [artC], page := 1, per_page := 8, total_immediate := 1,
    background_task_id := some "T2", message := "立即結果" }

/-- Terminal observation of the superseded task `T1`: completed with article
B. -/
def t1Completed : SearchTask := taskT1 .completed 100 [artB]

/-- Non-terminal observation of the superseded task `T1`. -/
def t1Progress : SearchTask := taskT1 .fetching_articles 20 []

/-- Interleaving in which query Q2 supersedes Q1 while Q1's poll is in flight
and the remote cancel of `T1` fails, after which `T1`'s poll observes
`completed`: Q1 starts and renders its immediate wave; Q2 starts (the awaited
`cancelSearchTask("T1")` rejects and is only logged) and renders its immediate
wave; then the still-running Q1 poll's terminal observation fires Q1's
`onFinalResults`; finally Q1's `handleSmartSearch` settles. -/
def staleOverwriteTrace : List Event :=
  [ .startSearch "Q1" (.ok ()),
    .immediateResults immediateQ1,
    .startSearch "Q2" (.error "cancel failed"),
    .immediateResults immediateQ2,
    .finalResults t1Completed,
    .searchSettled ]

/-- Interleaving in which, after Q2 supersedes Q1, the superseded Q1 poll
performs its next fetch and invokes its observer with a non-terminal `T1`
status. -/
def staleObserverTrace : List Event :=
  [ .startSearch "Q1" (.ok ()),
    .immediateResults immediateQ1,
    .startSearch "Q2" (.error "cancel failed"),
    .immediateResults immediateQ2,
    .progressTick t1Progress ]

/-- A state with an active background task and a visible search task, as left
by an immediate wave plus one progress tick. -/
def cancelDemoState : NewsListState :=
  { initialState with backgroundTaskId := some "T1",
                      currentSearchTask := some t1Progress,
                      newsList := [artA] }

/-- A five-article immediate wave with a background task, for the
failure-non-destructiveness scenario. -/
def immediateFive : PaginatedSearchResult :=
  { articles := [artA, artB, artC, artD, artE], page := 1, per_page := 8,
    total_immediate := 5, background_task_id := some "T9",
    message := "立即結果" }

/-! ## Theorems -/

theorem mergeArticles_eq_append_filter (cur inc : List NewsItem) :
    mergeArticles cur inc =
      cur ++ inc.filter (fun a => decide (a.id ∉ cur.map (fun item => item.id))) := by
  show cur ++
      inc.filter (fun article => !((cur.map (fun item => item.id)).contains article.id)) = _
  congr 1
  apply List.filter_congr
  intro a _
  rw [decide_not]
  congr 1
  simp [List.elem_iff]

theorem mem_ids_mergeArticles (cur inc : List NewsItem) (a : NewsItem)
    (ha : a ∈ inc) :
    a.id ∈ (mergeArticles cur inc).map (fun item => item.id) := by
  rw [mergeArticles_eq_append_filter]
  by_cases h : a.id ∈ cur.map (fun item => item.id)
  · simp [h]
  · have : a ∈ inc.filter (fun a => decide (a.id ∉ cur.map (fun item => item.id))) := by
      simp only [List.mem_filter, decide_eq_true_eq]
      exact ⟨ha, h⟩
    simp only [List.map_append, List.mem_append]
    right
    exact List.mem_map.mpr ⟨a, this, rfl⟩

/-- Claim C3 — the Result Merger returns the current sequence unchanged in order
and content, followed by exactly those incoming elements whose identifier does
not already occur in the current sequence, kept in arrival order; in
particular, displayed `[A, B]` merged with a completed task's `[B, C]` yields
`[A, B, C]` with B not duplicated. -/
theorem merge_preserves_current_and_appends_new (cur inc : List NewsItem) :
    (mergeArticles cur inc).take cur.length = cur ∧
    (mergeArticles cur inc).drop cur.length =
      inc.filter (fun a => decide (a.id ∉ cur.map (fun item => item.id))) ∧
    mergeArticles [artA, artB] [artB2, artC] = [artA, artB, artC] := by
  refine ⟨?_, ?_, ?_⟩
  · rw [mergeArticles_eq_append_filter]
    simp
  · rw [mergeArticles_eq_append_filter]
    simp
  · decide

/-- Claim C4 — the merge operation is idempotent: merging the same incoming batch
a second time into the result of merging it once produces no further change. -/
theorem merge_idempotent (cur inc : List NewsItem) :
    mergeArticles (mergeArticles cur inc) inc = mergeArticles cur inc := by
  have hnil :
      inc.filter
        (fun a => !(((mergeArticles cur inc).map (fun item => item.id)).contains a.id)) = [] := by
    rw [List.filter_eq_nil_iff]
    intro a ha
    have hmem := mem_ids_mergeArticles cur inc a ha
    simp [List.elem_iff, hmem]
  show mergeArticles cur inc ++ _ = mergeArticles cur inc
  rw [hnil, List.append_nil]

/-- Claim C10 — the merge does not deduplicate within the incoming batch itself:
the identifier membership set is built from the displayed list only and is not
updated while the batch is filtered, so every occurrence of an identifier that
is absent from the displayed list is appended. Stated as: for an identifier `k`
not present in the displayed list, the merged list contains exactly as many
items with identifier `k` as the incoming batch does. -/
theorem merge_keeps_intra_batch_duplicates (cur inc : List NewsItem) (k : String)
    (hk : k ∉ cur.map (fun item => item.id)) :
    (mergeArticles cur inc).countP (fun a => a.id == k) =
      inc.countP (fun a => a.id == k) := by
  rw [mergeArticles_eq_append_filter, List.countP_append]
  have hcur : cur.countP (fun a => a.id == k) = 0 := by
    rw [List.countP_eq_zero]
    intro a ha
    simp only [beq_iff_eq]
    intro h
    exact hk (List.mem_map.mpr ⟨a, ha, h⟩)
  rw [hcur, Nat.zero_add, List.countP_filter]
  apply List.countP_congr
  intro a ha
  constructor
  · intro h
    simp only [Bool.and_eq_true] at h
    exact h.1
  · intro h
    simp only [beq_iff_eq] at h
    simp only [Bool.and_eq_true, decide_eq_true_eq]
    exact ⟨by simp [h], by rw [h]; exact hk⟩

/-- Witness for `merge_keeps_intra_batch_duplicates`: identifier `"b"` is not
displayed, the incoming batch carries two items with identifier `"b"`, and both
survive the merge. -/
theorem merge_keeps_intra_batch_duplicates_witness :
    "b" ∉ ([artA].map (fun item => item.id)) ∧
    (mergeArticles [artA] [artB, artB2]).countP (fun a => a.id == "b") = 2 := by
  refine ⟨by decide, ?_⟩
  have h := merge_keeps_intra_batch_duplicates [artA] [artB, artB2] "b" (by decide)
  rw [h]
  decide

lemma pollSearchStatus_continue (o : FetchOutcome) (rest : List FetchOutcome)
    (ho : continuesPolling o = true) :
    ∃ task, o = .ok task ∧
      pollSearchStatus (o :: rest) =
        ⟨task :: (pollSearchStatus rest).observations,
         (pollSearchStatus rest).outcome,
         (pollSearchStatus rest).fetches + 1⟩ := by
  match o with
  | .err msg => simp [continuesPolling] at ho
  | .ok task =>
    refine ⟨task, rfl, ?_⟩
    simp only [continuesPolling, decide_eq_true_eq] at ho
    obtain ⟨h1, h2, h3⟩ := ho
    simp [pollSearchStatus, h1, h2, h3]

lemma pollSearchStatus_skip_nonterminal (pre : List FetchOutcome)
    (hpre : ∀ o ∈ pre, continuesPolling o = true) (tail : List FetchOutcome) :
    (pollSearchStatus (pre ++ tail)).outcome = (pollSearchStatus tail).outcome ∧
    (pollSearchStatus (pre ++ tail)).fetches =
      pre.length + (pollSearchStatus tail).fetches := by
  induction pre with
  | nil => simp
  | cons o pre ih =>
    have ho : continuesPolling o = true := hpre o (List.mem_cons_self o pre)
    have hrest : ∀ o ∈ pre, continuesPolling o = true :=
      fun x hx => hpre x (List.mem_cons_of_mem o hx)
    obtain ⟨task, rfl, heq⟩ := pollSearchStatus_continue o (pre ++ tail) ho
    rw [List.cons_append, heq]
    obtain ⟨h1, h2⟩ := ih hrest
    refine ⟨h1, ?_⟩
    simp only [h2, List.length_cons]
    omega

/-- Claim C6 — after any run of non-terminal fetches, the poll's promise is
settled by the first terminal observation: it resolves with the fetched task
when its status is `completed`; rejects with the task's `error` (falling back
to its `message`) when the status is `error`; rejects with the cancellation
message when the status is `cancelled`; and a transport-level fetch failure
rejects immediately with that failure, with no silent retry (exactly one fetch
is consumed by the failing step). -/
theorem poll_termination_cases (pre : List FetchOutcome)
    (hpre : ∀ o ∈ pre, continuesPolling o = true)
    (task : SearchTask) (msg : String) (rest : List FetchOutcome) :
    (task.status = .completed →
      (pollSearchStatus (pre ++ .ok task :: rest)).outcome = .resolved task) ∧
    (task.status = .error →
      (pollSearchStatus (pre ++ .ok task :: rest)).outcome =
        .rejected (jsOrElse task.error task.message)) ∧
    (task.status = .cancelled →
      (pollSearchStatus (pre ++ .ok task :: rest)).outcome =
        .rejected "搜尋已取消") ∧
    ((pollSearchStatus (pre ++ .err msg :: rest)).outcome = .rejected msg ∧
      (pollSearchStatus (pre ++ .err msg :: rest)).fetches = pre.length + 1) := by
  refine ⟨?_, ?_, ?_, ?_⟩
  · intro h
    rw [(pollSearchStatus_skip_nonterminal pre hpre (.ok task :: rest)).1]
    simp [pollSearchStatus, h]
  · intro h
    rw [(pollSearchStatus_skip_nonterminal pre hpre (.ok task :: rest)).1]
    simp [pollSearchStatus, h]
  · intro h
    rw [(pollSearchStatus_skip_nonterminal pre hpre (.ok task :: rest)).1]
    simp [pollSearchStatus, h]
  · obtain ⟨h1, h2⟩ := pollSearchStatus_skip_nonterminal pre hpre (.err msg :: rest)
    exact ⟨by rw [h1]; rfl, by rw [h2]; rfl⟩

/-- Witness for `poll_termination_cases`: after one `fetching_articles`
observation, a `completed` fetch resolves the poll, and in the transport-error
script the rejection is immediate. -/
theorem poll_termination_cases_witness :
    (∀ o ∈ [FetchOutcome.ok (taskT1 .fetching_articles 20 [])],
      continuesPolling o = true) ∧
    (pollSearchStatus
        ([FetchOutcome.ok (taskT1 .fetching_articles 20 [])] ++
          .ok (taskT1 .completed 100 [artB, artC]) :: [])).outcome =
      .resolved (taskT1 .completed 100 [artB, artC]) ∧
    (pollSearchStatus
        ([FetchOutcome.ok (taskT1 .fetching_articles 20 [])] ++
          .err "network down" :: [])).outcome = .rejected "network down" := by
  have h := poll_termination_cases
    [FetchOutcome.ok (taskT1 .fetching_articles 20 [])]
    (by decide)
    (taskT1 .completed 100 [artB, artC]) "network down" []
  exact ⟨by decide, h.1 (by decide), h.2.2.2.1⟩

/-- Claim C7 — terminal-state finality: once a fetched status of `completed`,
`error`, or `cancelled` (or a thrown status fetch) has been observed, the poll
instance issues no further status fetch — the number of fetches is exactly the
non-terminal prefix length plus one, whatever outcomes would have followed. -/
theorem poll_terminal_finality (pre : List FetchOutcome)
    (hpre : ∀ o ∈ pre, continuesPolling o = true)
    (x : FetchOutcome) (hx : continuesPolling x = false)
    (rest : List FetchOutcome) :
    (pollSearchStatus (pre ++ x :: rest)).fetches = pre.length + 1 := by
  rw [(pollSearchStatus_skip_nonterminal pre hpre (x :: rest)).2]
  congr 1
  match x with
  | .err msg => rfl
  | .ok task =>
    cases h : task.status
    case completed => simp [pollSearchStatus, h]
    case error => simp [pollSearchStatus, h]
    case cancelled => simp [pollSearchStatus, h]
    all_goals simp [continuesPolling, h] at hx

/-- Witness for `poll_terminal_finality`: a poll that sees `started`,
`fetching_articles`, then `cancelled` issues exactly three fetches even though
the script offers two more outcomes after the terminal one. -/
theorem poll_terminal_finality_witness :
    (∀ o ∈ [FetchOutcome.ok (taskT1 .started 0 []),
            FetchOutcome.ok (taskT1 .fetching_articles 20 [])],
      continuesPolling o = true) ∧
    continuesPolling (.ok (taskT1 .cancelled 20 [])) = false ∧
    (pollSearchStatus
        ([FetchOutcome.ok (taskT1 .started 0 []),
          FetchOutcome.ok (taskT1 .fetching_articles 20 [])] ++
          .ok (taskT1 .cancelled 20 []) ::
            [.ok (taskT1 .completed 100 []), .err "late"])).fetches = 3 := by
  refine ⟨by decide, by decide, ?_⟩
  exact poll_terminal_finality
    [FetchOutcome.ok (taskT1 .started 0 []),
     FetchOutcome.ok (taskT1 .fetching_articles 20 [])]
    (by decide) (.ok (taskT1 .cancelled 20 [])) (by decide)
    [.ok (taskT1 .completed 100 []), .err "late"]

lemma applyObservations_frame (obs : List SearchTask) (s : NewsListState) :
    (applyObservations obs s).newsList = s.newsList ∧
    (applyObservations obs s).error = s.error ∧
    (applyObservations obs s).isSearching = s.isSearching := by
  induction obs generalizing s with
  | nil => exact ⟨rfl, rfl, rfl⟩
  | cons t obs ih =>
    have h := ih (onProgress t s)
    simpa [applyObservations, onProgress] using h

/-- Claim C8 — a progress observation updates only the session's visible task
(progress/status) field and never the displayed article list: `onProgress` is
exactly `setCurrentSearchTask`, and delivering every observer invocation of an
arbitrary poll run leaves `newsList` untouched, so any partial `articles`
payload carried by a non-terminal `SearchTask` is discarded rather than
merged. -/
theorem progress_preserves_display (task : SearchTask) (s s' : NewsListState)
    (script : List FetchOutcome) :
    onProgress task s = { s with currentSearchTask := some task } ∧
    (onProgress task s).newsList = s.newsList ∧
    (applyObservations (pollSearchStatus script).observations s').newsList =
      s'.newsList := by
  exact ⟨rfl, rfl, (applyObservations_frame _ s').1⟩

/-- Claim C5 — failure non-destructiveness: when the immediate wave has rendered
its articles and the background poll then rejects (task `status = error`,
`status = cancelled`, or a transport-level fetch failure), the displayed list
still contains exactly the immediate wave's articles, and the search's `error`
field is untouched — the failure is swallowed by `smartSearch`'s `catch` and
never surfaced as a fatal error. -/
theorem background_failure_nondestructive (immediate : PaginatedSearchResult)
    (tid : String) (script : List FetchOutcome) (s : NewsListState) (m : String)
    (htid : immediate.background_task_id = some tid)
    (hrej : (pollSearchStatus script).outcome = .rejected m) :
    (smartSearchRun immediate script s).newsList = immediate.articles ∧
    (smartSearchRun immediate script s).error = s.error ∧
    (smartSearchRun immediate script s).isSearching = false := by
  have hframe := applyObservations_frame (pollSearchStatus script).observations
    (onImmediateResults immediate s)
  simp only [smartSearchRun, htid, hrej]
  refine ⟨?_, ?_, ?_⟩
  · rw [hframe.1]
    rfl
  · rw [hframe.2.1]
    rfl
  · trivial

/-- Witness for `background_failure_nondestructive`: a five-article immediate
wave whose background task reports `error` after one progress tick; the final
list is exactly those five articles. -/
theorem background_failure_nondestructive_witness :
    immediateFive.background_task_id = some "T9" ∧
    (pollSearchStatus
        [.ok (taskT1 .fetching_articles 20 [artB2]),
         .ok { taskT1 .error 40 [] with error := some "crawler crashed" }]).outcome =
      .rejected "crawler crashed" ∧
    (smartSearchRun immediateFive
        [.ok (taskT1 .fetching_articles 20 [artB2]),
         .ok { taskT1 .error 40 [] with error := some "crawler crashed" }]
        (handleSmartSearchStart "台灣" (.ok ()) initialState)).newsList =
      [artA, artB, artC, artD, artE] ∧
    (smartSearchRun immediateFive
        [.ok (taskT1 .fetching_articles 20 [artB2]),
         .ok { taskT1 .error 40 [] with error := some "crawler crashed" }]
        (handleSmartSearchStart "台灣" (.ok ()) initialState)).error = none := by
  have h := background_failure_nondestructive immediateFive "T9"
    [.ok (taskT1 .fetching_articles 20 [artB2]),
     .ok { taskT1 .error 40 [] with error := some "crawler crashed" }]
    (handleSmartSearchStart "台灣" (.ok ()) initialState)
    "crawler crashed" (by decide) (by decide)
  exact ⟨by decide, by decide, h.1, h.2.1⟩

/-- Claim C9 counterexample — the claim fails at `handleCancelSearch`: with an
active background task, a successful remote cancel clears the visible task and
task id while a failed one leaves them in place, so the client-visible state
after a failed remote cancel differs from the state after a successful one. -/
theorem cancel_failure_not_equivalent_counterexample :
    handleCancelSearch (Except.error "network error") cancelDemoState ≠
      handleCancelSearch (Except.ok ()) cancelDemoState := by
  decide

/-- Claim C9, amended — in the supersession path (`handleSmartSearch`), a failed
remote cancellation is only logged and the handler proceeds exactly as on a
successful one; in the user-initiated `handleCancelSearch`, a failed remote
cancellation is only logged and leaves the component state entirely unchanged
(whereas a successful one clears `currentSearchTask` and `backgroundTaskId`). -/
theorem cancel_failure_behavior (query e : String) (s : NewsListState) :
    handleSmartSearchStart query (Except.error e) s =
      handleSmartSearchStart query (Except.ok ()) s ∧
    handleCancelSearch (Except.error e) s = s := by
  refine ⟨rfl, ?_⟩
  cases h : s.backgroundTaskId with
  | none =>
    unfold handleCancelSearch
    rw [h]
  | some tid =>
    unfold handleCancelSearch
    rw [h]

/-- Claim C1 — evaluation at the failing interleaving: query Q2 supersedes Q1
(generation G+1) while Q1's poll is in flight; the remote cancel of `T1` fails;
Q1's terminal observation (`completed` with article B) then fires Q1's
`onFinalResults`, which carries no generation token and merges B into Q2's
displayed list. The G+1 session displays `[C, B]`, not its own `[C]`: the
stale asynchronous result has altered the fresher session's list. -/
theorem stale_terminal_observation_alters_fresh_session :
    (runTrace initialState staleOverwriteTrace).newsList = [artC, artB] ∧
    (runTrace initialState staleOverwriteTrace).newsList ≠
      immediateQ2.articles ∧
    (runTrace initialState staleOverwriteTrace).currentSearchTask =
      some t1Completed := by
  refine ⟨by decide, by decide, by decide⟩

/-- Claim C2 — evaluation at the failing interleaving: after Q2 supersedes Q1,
the superseded Q1 poll (whose remote cancel failed) performs its next fetch and
invokes its observer; that observation lands in the session whose active
background task is `T2`, overwriting its visible task with `T1`'s — two pollers
are actively invoking observers at once, and the abandoned poll keeps invoking
its observer because `pollSearchStatus` checks no cancellation token or flag
before scheduling each next fetch. -/
theorem abandoned_poll_still_invokes_observer :
    (runTrace initialState staleObserverTrace).backgroundTaskId = some "T2" ∧
    (runTrace initialState staleObserverTrace).currentSearchTask =
      some t1Progress ∧
    t1Progress.task_id = "T1" := by
  refine ⟨by decide, by decide, by decide⟩

end Heario
